import Mathlib

/-!
Verification of the authentication session/token-lifecycle manager of the
Hirify frontend (src/hooks/useAuth.ts).  The hook is embedded shallowly:
the React auth state, the localStorage token slot and the pending
setTimeout timers become an explicit system state, the external calls
(supabase.auth.refreshSession, getMyProfile, apiLogin) become environment
parameters, and each operation of the hook becomes a pure state
transformer.  JWT payload decoding (base64 plus JSON.parse) is embedded
in full so that the scheduling logic runs on real token strings.
-/

namespace Hirify

/-- JSON values as produced by JSON.parse.  Numbers are kept as exact
rationals; IEEE-754 rounding of huge or fractional literals is not
modelled. -/
inductive Json where
  | null
  | bool (b : Bool)
  | num (q : ℚ)
  | str (s : String)
  | arr (elems : List Json)
  | obj (fields : List (String × Json))

/-- ASCII whitespace stripped by the forgiving-base64 decode of atob. -/
def isB64Ws (c : Char) : Bool :=
  c == ' ' || c == '\t' || c == '\n' || c == '\x0c' || c == '\r'

/-- Value of one base64 alphabet character. -/
def b64Val (c : Char) : Option Nat :=
  if 'A' ≤ c ∧ c ≤ 'Z' then some (c.toNat - 65)
  else if 'a' ≤ c ∧ c ≤ 'z' then some (c.toNat - 71)
  else if '0' ≤ c ∧ c ≤ '9' then some (c.toNat + 4)
  else if c == '+' then some 62
  else if c == '/' then some 63
  else none

/-- Bit-accumulating base64 decode of character values into bytes;
trailing bits that do not fill a byte are discarded, as in the
forgiving-base64 algorithm. -/
def b64Bytes : List Nat → Nat → Nat → List Nat
  | [], _, _ => []
  | v :: vs, acc, bits =>
    let acc1 := acc * 64 + v
    let bits1 := bits + 6
    if 8 ≤ bits1 then
      (acc1 / 2 ^ (bits1 - 8)) % 256 :: b64Bytes vs (acc1 % 2 ^ (bits1 - 8)) (bits1 - 8)
    else
      b64Bytes vs acc1 bits1

/-- Strip up to two trailing padding characters. -/
def dropTrailingEq (cs : List Char) : List Char :=
  match cs.reverse with
  | '=' :: '=' :: rest => rest.reverse
  | '=' :: rest => rest.reverse
  | _ => cs

/-- WHATWG forgiving-base64 decode, the semantics of atob: strip ASCII
whitespace, strip up to two trailing padding characters when the length
is a multiple of four, reject a remainder of one or any character
outside the alphabet, then emit six bits per character.  Returns the
decoded bytes, or none where atob throws. -/
def atob (s : String) : Option (List Nat) :=
  let cs0 := s.data.filter (fun c => !isB64Ws c)
  let cs := if cs0.length % 4 = 0 then dropTrailingEq cs0 else cs0
  if cs.length % 4 = 1 then none
  else
    match cs.mapM b64Val with
    | none => none
    | some vs => some (b64Bytes vs 0 0)

/-- JSON whitespace. -/
def jsonWs (c : Char) : Bool :=
  c == ' ' || c == '\t' || c == '\n' || c == '\r'

def skipWs : List Char → List Char
  | c :: cs => if jsonWs c then skipWs cs else c :: cs
  | [] => []

/-- Value of one hexadecimal digit. -/
def hexVal (c : Char) : Option Nat :=
  if '0' ≤ c ∧ c ≤ '9' then some (c.toNat - 48)
  else if 'a' ≤ c ∧ c ≤ 'f' then some (c.toNat - 87)
  else if 'A' ≤ c ∧ c ≤ 'F' then some (c.toNat - 55)
  else none

/-- One code point from a parsed hexadecimal escape.  Lean characters
cannot hold lone UTF-16 surrogates, which JS strings can; a lone
surrogate becomes the replacement character (no JWT payload relevant
here contains one). -/
def charOfCode (n : Nat) : Char :=
  if n < 0xD800 ∨ (0xDFFF < n ∧ n < 0x110000) then Char.ofNat n else '�'

def parseU4 : List Char → Option (Nat × List Char)
  | a :: b :: c :: d :: rest => do
    let x ← hexVal a
    let y ← hexVal b
    let z ← hexVal c
    let w ← hexVal d
    pure (x * 4096 + y * 256 + z * 16 + w, rest)
  | _ => none

/-- Body of a JSON string after the opening quote: escapes decoded,
surrogate pairs combined, raw control characters rejected. -/
def parseStrBody : Nat → List Char → List Char → Option (String × List Char)
  | 0, _, _ => none
  | _ + 1, acc, '"' :: rest => some (String.mk acc.reverse, rest)
  | fuel + 1, acc, '\\' :: esc =>
    (match esc with
    | '"' :: rest => parseStrBody fuel ('"' :: acc) rest
    | '\\' :: rest => parseStrBody fuel ('\\' :: acc) rest
    | '/' :: rest => parseStrBody fuel ('/' :: acc) rest
    | 'b' :: rest => parseStrBody fuel ('\x08' :: acc) rest
    | 'f' :: rest => parseStrBody fuel ('\x0c' :: acc) rest
    | 'n' :: rest => parseStrBody fuel ('\n' :: acc) rest
    | 'r' :: rest => parseStrBody fuel ('\x0d' :: acc) rest
    | 't' :: rest => parseStrBody fuel ('\t' :: acc) rest
    | 'u' :: rest =>
      (match parseU4 rest with
      | none => none
      | some (n1, rest1) =>
        if 0xD800 ≤ n1 ∧ n1 ≤ 0xDBFF then
          match rest1 with
          | '\\' :: 'u' :: rest2 =>
            (match parseU4 rest2 with
            | some (n2, rest3) =>
              if 0xDC00 ≤ n2 ∧ n2 ≤ 0xDFFF then
                parseStrBody fuel
                  (charOfCode (0x10000 + (n1 - 0xD800) * 1024 + (n2 - 0xDC00)) :: acc) rest3
              else parseStrBody fuel (charOfCode n2 :: charOfCode n1 :: acc) rest3
            | none => none)
          | _ => parseStrBody fuel (charOfCode n1 :: acc) rest1
        else parseStrBody fuel (charOfCode n1 :: acc) rest1)
    | _ => none)
  | fuel + 1, acc, c :: rest =>
    if c.toNat < 32 then none else parseStrBody fuel (c :: acc) rest
  | _, _, [] => none

/-- Longest prefix of decimal digits, as digit values. -/
def takeDigits : List Char → List Nat × List Char
  | c :: rest =>
    if '0' ≤ c ∧ c ≤ '9' then
      let p := takeDigits rest
      ((c.toNat - 48) :: p.1, p.2)
    else ([], c :: rest)
  | [] => ([], [])

def digitsNat (ds : List Nat) : Nat := ds.foldl (fun a d => a * 10 + d) 0

/-- Fraction part of a JSON number: a dot must be followed by at least
one digit. -/
def parseFrac : List Char → Option (List Nat × List Char)
  | '.' :: rest =>
    (match takeDigits rest with
    | ([], _) => none
    | (ds, r) => some (ds, r))
  | cs => some ([], cs)

/-- Exponent part of a number literal, defaulting to zero. -/
def parseExpPart : List Char → Option (Int × List Char)
  | c :: rest =>
    if c == 'e' || c == 'E' then
      let p : (Int × List Char) := match rest with
        | '+' :: r => (1, r)
        | '-' :: r => (-1, r)
        | _ => (1, rest)
      match takeDigits p.2 with
      | ([], _) => none
      | (ds, r) => some (p.1 * (digitsNat ds : Int), r)
    else some (0, c :: rest)
  | [] => some (0, [])

/-- Exact rational value of sign, integer digits, fraction digits and
decimal exponent. -/
def ratOfParts (neg : Bool) (ids fds : List Nat) (e : Int) : ℚ :=
  let base : ℚ := (digitsNat ids : ℚ) + (digitsNat fds : ℚ) / (10 : ℚ) ^ fds.length
  let scaled := base * (10 : ℚ) ^ e
  if neg then -scaled else scaled

/-- JSON number grammar: optional minus, integer part without leading
zeros, optional fraction, optional exponent. -/
def parseNum (cs : List Char) : Option (ℚ × List Char) :=
  let p : (Bool × List Char) := match cs with
    | '-' :: rest => (true, rest)
    | _ => (false, cs)
  match takeDigits p.2 with
  | ([], _) => none
  | (ids, cs2) =>
    if 1 < ids.length ∧ ids.head? = some 0 then none
    else
      match parseFrac cs2 with
      | none => none
      | some (fds, cs3) =>
        match parseExpPart cs3 with
        | none => none
        | some (e, cs4) => some (ratOfParts p.1 ids fds e, cs4)

mutual

/-- One JSON value (leading whitespace already consumed). -/
def parseValue : Nat → List Char → Option (Json × List Char)
  | 0, _ => none
  | fuel + 1, cs =>
    match cs with
    | 'n' :: 'u' :: 'l' :: 'l' :: rest => some (.null, rest)
    | 't' :: 'r' :: 'u' :: 'e' :: rest => some (.bool true, rest)
    | 'f' :: 'a' :: 'l' :: 's' :: 'e' :: rest => some (.bool false, rest)
    | '"' :: rest =>
      (match parseStrBody (rest.length + 1) [] rest with
      | some (s, r) => some (.str s, r)
      | none => none)
    | '[' :: rest =>
      (match skipWs rest with
      | ']' :: r => some (.arr [], r)
      | cs1 =>
        match parseElems fuel cs1 with
        | some (es, r) => some (.arr es, r)
        | none => none)
    | '{' :: rest =>
      (match skipWs rest with
      | '}' :: r => some (.obj [], r)
      | cs1 =>
        match parseFields fuel cs1 with
        | some (fs, r) => some (.obj fs, r)
        | none => none)
    | _ =>
      match parseNum cs with
      | some (q, r) => some (.num q, r)
      | none => none

/-- Comma-separated array elements up to the closing bracket. -/
def parseElems : Nat → List Char → Option (List Json × List Char)
  | 0, _ => none
  | fuel + 1, cs =>
    match parseValue fuel cs with
    | none => none
    | some (v, r) =>
      match skipWs r with
      | ',' :: r2 =>
        (match parseElems fuel (skipWs r2) with
        | some (vs, r3) => some (v :: vs, r3)
        | none => none)
      | ']' :: r2 => some ([v], r2)
      | _ => none

/-- Comma-separated object members up to the closing brace. -/
def parseFields : Nat → List Char → Option (List (String × Json) × List Char)
  | 0, _ => none
  | fuel + 1, cs =>
    match cs with
    | '"' :: rest =>
      (match parseStrBody (rest.length + 1) [] rest with
      | none => none
      | some (k, r) =>
        match skipWs r with
        | ':' :: r2 =>
          (match parseValue fuel (skipWs r2) with
          | none => none
          | some (v, r3) =>
            match skipWs r3 with
            | ',' :: r4 =>
              (match parseFields fuel (skipWs r4) with
              | some (fs, r5) => some ((k, v) :: fs, r5)
              | none => none)
            | '}' :: r4 => some ([(k, v)], r4)
            | _ => none)
        | _ => none)
    | _ => none

end

/-- JSON.parse: parse a complete JSON text, returning none where it
throws. -/
def jsonParse (s : String) : Option Json :=
  match parseValue (s.data.length + 1) (skipWs s.data) with
  | some (v, rest) => if (skipWs rest).isEmpty then some v else none
  | none => none

/-- JS String.prototype.split on a dot: every segment, empties kept. -/
def splitOnDot : List Char → List (List Char)
  | [] => [[]]
  | c :: rest =>
    if c == '.' then [] :: splitOnDot rest
    else
      match splitOnDot rest with
      | seg :: segs => (c :: seg) :: segs
      | [] => [[c]]

/-- decodeJwt (useAuth.ts lines 10-20): take the payload segment of the
token, undo the URL-safe base64 characters, atob-decode and JSON.parse;
every failure is caught and yields none, the JS null. -/
def decodeJwt (token : String) : Option Json :=
  match (splitOnDot token.data).get? 1 with
  | none => none
  | some payload =>
    let fixed := payload.map fun c =>
      if c == '-' then '+' else if c == '_' then '/' else c
    match atob (String.mk fixed) with
    | none => none
    | some bytes => jsonParse (String.mk (bytes.map Char.ofNat))

/-- A JS number as needed for the expiry arithmetic: NaN, the two signed
infinities, or a finite value (exact rational; float rounding is not
modelled). -/
inductive JsNum where
  | nan
  | posInf
  | negInf
  | fin (q : ℚ)
deriving DecidableEq

/-- Multiplication by 1000 (exp is in seconds, Date.now in ms). -/
def JsNum.mul1000 : JsNum → JsNum
  | fin q => fin (q * 1000)
  | x => x

/-- Subtraction of a finite integer. -/
def JsNum.subInt : JsNum → Int → JsNum
  | fin q, n => fin (q - n)
  | x, _ => x

/-- JS comparison x <= 0; false on NaN. -/
def JsNum.leZero : JsNum → Bool
  | fin q => decide (q ≤ 0)
  | negInf => true
  | _ => false

/-- JS comparison n < x; false on NaN. -/
def JsNum.gtInt : JsNum → Int → Bool
  | fin q, n => decide ((n : ℚ) < q)
  | posInf, _ => true
  | _, _ => false

/-- Whitespace trimmed by JS string-to-number coercion (ASCII forms and
U+00A0; other Unicode space code points are not modelled). -/
def jsStrWs (c : Char) : Bool :=
  c == ' ' || c == '\t' || c == '\n' || c == '\r' || c == '\x0b' || c == '\x0c' || c == '\xa0'

def trimJs (cs : List Char) : List Char :=
  ((cs.dropWhile jsStrWs).reverse.dropWhile jsStrWs).reverse

/-- A StrDecimalLiteral consuming the whole input: digits with an
optional dot on either side and an optional exponent. -/
def parseDecLiteral (cs : List Char) : Option ℚ :=
  let p := takeDigits cs
  match p.2 with
  | '.' :: rest =>
    let f := takeDigits rest
    if p.1.isEmpty ∧ f.1.isEmpty then none
    else
      (match parseExpPart f.2 with
      | some (e, []) => some (ratOfParts false p.1 f.1 e)
      | _ => none)
  | _ =>
    if p.1.isEmpty then none
    else
      match parseExpPart p.2 with
      | some (e, []) => some (ratOfParts false p.1 [] e)
      | _ => none

/-- Digits of the given radix (2, 8 or 16), consuming the whole input. -/
def parseRadix (radix : Nat) : List Char → Option Nat
  | [] => none
  | cs => go cs 0
where
  go : List Char → Nat → Option Nat
    | [], acc => some acc
    | c :: rest, acc =>
      match hexVal c with
      | some v => if v < radix then go rest (acc * radix + v) else none
      | none => none

/-- JS ToNumber on a string: whitespace trimmed, empty means zero, an
optional sign with Infinity or a decimal literal, or an unsigned
0x/0o/0b radix literal; everything else is NaN. -/
def strToNumber (s : String) : JsNum :=
  match trimJs s.data with
  | [] => .fin 0
  | '0' :: c :: rest =>
    if c == 'x' || c == 'X' then
      (match parseRadix 16 rest with
      | some n => .fin n
      | none => .nan)
    else if c == 'o' || c == 'O' then
      (match parseRadix 8 rest with
      | some n => .fin n
      | none => .nan)
    else if c == 'b' || c == 'B' then
      (match parseRadix 2 rest with
      | some n => .fin n
      | none => .nan)
    else signedNumBody false ('0' :: c :: rest)
  | '+' :: rest => signedNumBody false rest
  | '-' :: rest => signedNumBody true rest
  | cs => signedNumBody false cs
where
  signedNumBody (neg : Bool) (cs : List Char) : JsNum :=
    if cs = ['I', 'n', 'f', 'i', 'n', 'i', 't', 'y'] then
      (if neg then .negInf else .posInf)
    else
      match parseDecLiteral cs with
      | some q => .fin (if neg then -q else q)
      | none => .nan

/-- JS ToNumber on a JSON value: numbers, booleans, null and strings
exactly as in JS; an array coerces through its joined string form, which
is collapsed to NaN here (exact only for arrays no JWT payload
contains); a plain object is exactly NaN. -/
def jsToNumber : Json → JsNum
  | .num q => .fin q
  | .bool b => .fin (if b then 1 else 0)
  | .null => .fin 0
  | .str s => strToNumber s
  | .arr _ => .nan
  | .obj _ => .nan

/-- JS truthiness of a JSON value. -/
def jsTruthy : Json → Bool
  | .null => false
  | .bool b => b
  | .num q => decide (q ≠ 0)
  | .str s => !s.isEmpty
  | .arr _ => true
  | .obj _ => true

/-- Last binding of a key, as JSON.parse keeps the last duplicate. -/
def lookupLast (k : String) : List (String × Json) → Option Json
  | [] => none
  | (k1, v) :: rest =>
    match lookupLast k rest with
    | some r => some r
    | none => if k1 == k then some v else none

/-- JS property access on a decoded value: a lookup on an object, absent
on every other value. -/
def jsGet (v : Json) (k : String) : Option Json :=
  match v with
  | .obj fields => lookupLast k fields
  | _ => none

/-- The role strings of the backend. -/
inductive UserRole where
  | candidate
  | recruiter
deriving DecidableEq

/-- The profile payload of the Flask backend (useAuth.ts lines 24-31). -/
structure FlaskUser where
  id : String
  first_name : String
  last_name : String
  email : String
  role : UserRole
deriving DecidableEq

/-- The React auth state (useAuth.ts lines 33-38); the session object is
represented by the access token it carries. -/
structure AuthState where
  user : Option FlaskUser
  session : Option String
  role : Option UserRole
  loading : Bool
deriving DecidableEq

/-- The cleared auth state written by sign-out and every teardown. -/
def anonAuth : AuthState := ⟨none, none, none, false⟩

/-- One pending setTimeout: its handle, its delay in ms, and the render
generation whose refreshTimer binding received the handle. -/
structure Timer where
  id : Nat
  delay : JsNum
  gen : Nat
deriving DecidableEq

/-- Whole-system state of the hook: the React state (useState persists
across renders), the localStorage slot "flask_access_token", the pending
browser timers, the handle counter, plus ghost observations (count of
refreshSession calls, tokens that passed a profile fetch, tokens issued
by a login response) that influence no behavior.

The refreshTimer variable of the hook (useAuth.ts line 51) is NOT part
of this persistent state: it is a plain let in the hook body,
re-initialized to null on every render, so every render generation has
its own binding, visible only to the closures created by that render.
The binding is therefore threaded through each call chain as an explicit
argument: a chain started from a render begins with none, and the chain
of a timer callback begins with the fired timer's own handle, which is
what the arming render's binding holds when the callback runs (every
arming of that binding is preceded by a clearing of the handle it held
before). -/
structure Sys where
  auth : AuthState
  storage : Option String
  pending : List Timer
  nextId : Nat
  refreshCalls : Nat
  validated : List String
  issued : List String
deriving DecidableEq

/-- Outcome of one supabase.auth.refreshSession round together with the
getMyProfile call that follows it: none models an error or a missing
payload. -/
structure RefreshEnv where
  refreshResult : Option String
  profileResult : Option FlaskUser
deriving DecidableEq

/-- Outcome of the initial getMyProfile call of bootstrap: profile data,
a truthy error, or a response with neither. -/
inductive ProfileOutcome where
  | found (u : FlaskUser)
  | failed
  | silent
deriving DecidableEq

/-- Payload of a successful apiLogin response. -/
structure LoginData where
  access_token : Option String
  user : Option FlaskUser
deriving DecidableEq

/-- Outcome of one apiLogin call. -/
structure LoginEnv where
  error : Option String
  data : Option LoginData
deriving DecidableEq

/-- JS truthiness of an optional string. -/
def strTruthy : Option String → Bool
  | some s => !s.isEmpty
  | none => false

/-- clearInterval(refreshTimer); refreshTimer = null (lines 99-102,
250-253 and the unmount cleanup 201-206), acting on whatever handle the
running chain's binding holds — none for a chain started on a fresh
render, which therefore cancels nothing. -/
def clearVarTimer : Option Nat → Sys → Sys
  | none, s => s
  | some i, s => { s with pending := s.pending.filter (fun t => t.id != i) }

/-- setTimeout(cb, delay) at line 136: a fresh pending timer, tagged
with the render generation whose binding receives the handle. -/
def armTimer (g : Nat) (delay : JsNum) (s : Sys) : Sys :=
  { s with pending := s.pending ++ [⟨s.nextId, delay, g⟩], nextId := s.nextId + 1 }

/-- localStorage.removeItem plus setAuthState of the cleared state, the
teardown written at lines 90-91, 121-122 and 194-195. -/
def clearSession (s : Sys) : Sys :=
  { s with storage := none, auth := anonAuth }

/-- refreshAccessToken (lines 54-94): call refreshSession; on success
persist the new token, re-fetch the profile and set the state; any
failure is caught by clearing storage and state.  The binding is not
touched.  Returns the new state and the boolean result. -/
def refreshAccessToken (e : RefreshEnv) (s : Sys) : Sys × Bool :=
  let s0 := { s with refreshCalls := s.refreshCalls + 1 }
  match e.refreshResult with
  | none => (clearSession s0, false)
  | some tok =>
    if tok.isEmpty then (clearSession s0, false)
    else
      let s1 := { s0 with storage := some tok }
      match e.profileResult with
      | none => (clearSession s1, false)
      | some u =>
        ({ s1 with auth := ⟨some u, some tok, some u.role, false⟩,
                   validated := tok :: s1.validated }, true)

/-- initialToken || localStorage.getItem(...) (line 104). -/
def resolveToken (initialToken stored : Option String) : Option String :=
  if strTruthy initialToken then initialToken else stored

/-- checkAndScheduleRefresh (lines 97-154), running in render generation
g with the chain's current binding var.  The env list supplies the
responses of the refresh rounds the call chain performs; an empty list
models an environment whose next response never arrives, leaving the
state as the suspension point left it.  The recursive call after an
immediate refresh passes none: the binding was cleared on entry and
nothing rearmed it on that path. -/
def checkAndScheduleRefresh :
    List RefreshEnv → Option String → Int → Nat → Option Nat → Sys → Sys
  | envs, initialToken, now, g, var, s =>
    let s0 := clearVarTimer var s
    match resolveToken initialToken s0.storage with
    | none => s0
    | some tok =>
      if tok.isEmpty then s0
      else
        match decodeJwt tok with
        | none => s0
        | some decoded =>
          if jsTruthy decoded then
            match jsGet decoded "exp" with
            | none => s0
            | some ev =>
              if jsTruthy ev then
                let expiresInMs := (JsNum.mul1000 (jsToNumber ev)).subInt now
                if expiresInMs.leZero then clearSession s0
                else if expiresInMs.gtInt 300000 then
                  armTimer g (expiresInMs.subInt 300000) s0
                else
                  match envs with
                  | [] => s0
                  | e :: rest =>
                    let r := refreshAccessToken e s0
                    if r.2 then checkAndScheduleRefresh rest r.1.storage now g none r.1
                    else r.1
              else s0
          else s0

/-- The single-shot timer of line 136 firing: the pending timer is
consumed, its callback refreshes and reschedules on success.  The
callback's closures belong to the arming render, so its chain runs in
that generation with a binding still holding the fired handle. -/
def fireTimer (i : Nat) (envs : List RefreshEnv) (now : Int) (s : Sys) : Sys :=
  match s.pending.find? (fun t => t.id == i) with
  | none => s
  | some t =>
    let s0 := { s with pending := s.pending.filter (fun t2 => t2.id != i) }
    match envs with
    | [] => s0
    | e :: rest =>
      let r := refreshAccessToken e s0
      if r.2 then checkAndScheduleRefresh rest r.1.storage now t.gen (some i) r.1
      else r.1

/-- signOut (lines 246-266): remove the token, clear whatever handle the
calling render's binding holds (null on a fresh render, so a timer armed
by an earlier render's closures survives), clear the state; returns no
error. -/
def signOut (var : Option Nat) (s : Sys) : Sys :=
  let s0 := { s with storage := none }
  let s1 := clearVarTimer var s0
  { s1 with auth := anonAuth }

/-- The error string of the missing-payload branch of signIn. -/
def loginFailMsg : String :=
  "Login failed: Server response missing token or user data."

/-- signIn (lines 218-244), running in render generation g with a fresh
null binding: delegate to apiLogin; on a truthy error or a payload
missing a truthy token or user, return an error and touch nothing;
otherwise persist the token, set the state and schedule the refresh
check.  Returns the new state, the user and the error. -/
def signIn (le : LoginEnv) (envs : List RefreshEnv) (now : Int) (g : Nat) (s : Sys) :
    Sys × Option FlaskUser × Option String :=
  if strTruthy le.error then (s, none, le.error)
  else
    match le.data with
    | some d =>
      (match d.access_token, d.user with
      | some tok, some u =>
        if tok.isEmpty then (s, none, some loginFailMsg)
        else
          let s1 := { s with storage := some tok,
                             auth := ⟨some u, some tok, some u.role, false⟩,
                             issued := tok :: s.issued }
          (checkAndScheduleRefresh envs (some tok) now g none s1, some u, none)
      | _, _ => (s, none, some loginFailMsg))
    | none => (s, none, some loginFailMsg)

/-- checkLocalSession (lines 159-196): bootstrap on mount, running in
the mount render's generation g with a fresh null binding.  With a
persisted token the profile is fetched; on profile data the state is set
and the refresh scheduled; on a truthy profile error one refresh is
attempted and, on its success, rescheduling happens with the new token;
every remaining path clears storage and state. -/
def checkLocalSession (pe : ProfileOutcome) (envs : List RefreshEnv) (now : Int) (g : Nat)
    (s : Sys) : Sys :=
  let s0 := { s with auth := { s.auth with loading := true } }
  match s0.storage with
  | some tok =>
    if tok.isEmpty then clearSession s0
    else
      (match pe with
      | .found u =>
        let s1 := { s0 with auth := ⟨some u, some tok, some u.role, false⟩,
                            validated := tok :: s0.validated }
        checkAndScheduleRefresh envs (some tok) now g none s1
      | .failed =>
        (match envs with
        | [] => s0
        | e :: rest =>
          let r := refreshAccessToken e s0
          if r.2 then checkAndScheduleRefresh rest r.1.storage now g none r.1
          else clearSession r.1)
      | .silent => clearSession s0)
  | none => clearSession s0

/-- Initial state on mount: loading, no timers, whatever token storage
holds. -/
def initSys (tok : Option String) : Sys :=
  { auth := ⟨none, none, none, true⟩, storage := tok, pending := [],
    nextId := 0, refreshCalls := 0, validated := [], issued := [] }

/-- One observable operation of the session manager.  Chains started
from a render (bootstrap, sign-in, sign-out, a bare scheduling or
refresh call) run with a fresh null binding in some render generation;
the timer callback runs in its arming generation with the fired handle;
sign-out from a stale closure and the unmount cleanup run with whatever
their render's binding holds, over-approximated by an arbitrary
value. -/
inductive Step : Sys → Sys → Prop where
  | bootstrap (pe : ProfileOutcome) (envs : List RefreshEnv) (now : Int) (g : Nat) (s : Sys) :
      Step s (checkLocalSession pe envs now g s)
  | login (le : LoginEnv) (envs : List RefreshEnv) (now : Int) (g : Nat) (s : Sys) :
      Step s (signIn le envs now g s).1
  | logout (var : Option Nat) (s : Sys) : Step s (signOut var s)
  | refresh (e : RefreshEnv) (s : Sys) : Step s (refreshAccessToken e s).1
  | schedule (envs : List RefreshEnv) (tk : Option String) (now : Int) (g : Nat)
      (var : Option Nat) (s : Sys) : Step s (checkAndScheduleRefresh envs tk now g var s)
  | fire (i : Nat) (envs : List RefreshEnv) (now : Int) (s : Sys) :
      Step s (fireTimer i envs now s)
  | unmount (var : Option Nat) (s : Sys) : Step s (clearVarTimer var s)

/-- States reachable from a fresh mount with any persisted token. -/
inductive Reachable : Sys → Prop where
  | init (tok : Option String) : Reachable (initSys tok)
  | step {s s1 : Sys} : Reachable s → Step s s1 → Reachable s1

/-- The refresh round fails: refreshSession errors or returns no usable
access token, or the re-validation profile fetch after it fails. -/
def refreshFails (e : RefreshEnv) : Bool :=
  match e.refreshResult with
  | none => true
  | some t => t.isEmpty || e.profileResult.isNone

@[simp] lemma clearVarTimer_none (s : Sys) : clearVarTimer none s = s := rfl

@[simp] lemma clearVarTimer_auth (var : Option Nat) (s : Sys) :
    (clearVarTimer var s).auth = s.auth := by
  cases var <;> rfl

@[simp] lemma clearVarTimer_storage (var : Option Nat) (s : Sys) :
    (clearVarTimer var s).storage = s.storage := by
  cases var <;> rfl

@[simp] lemma clearVarTimer_nextId (var : Option Nat) (s : Sys) :
    (clearVarTimer var s).nextId = s.nextId := by
  cases var <;> rfl

@[simp] lemma clearVarTimer_refreshCalls (var : Option Nat) (s : Sys) :
    (clearVarTimer var s).refreshCalls = s.refreshCalls := by
  cases var <;> rfl

@[simp] lemma clearVarTimer_validated (var : Option Nat) (s : Sys) :
    (clearVarTimer var s).validated = s.validated := by
  cases var <;> rfl

@[simp] lemma clearVarTimer_issued (var : Option Nat) (s : Sys) :
    (clearVarTimer var s).issued = s.issued := by
  cases var <;> rfl

lemma clearVarTimer_pending_length (var : Option Nat) (s : Sys) :
    (clearVarTimer var s).pending.length ≤ s.pending.length := by
  cases var with
  | none => simp
  | some i => simpa using List.length_filter_le _ s.pending

/-- The character of the refresh round: the state component of the
result, by cases on the environment. -/
lemma refreshAccessToken_of_fail (e : RefreshEnv) (s : Sys) (h : refreshFails e = true) :
    refreshAccessToken e s =
      ({ s with storage := none, auth := anonAuth,
                refreshCalls := s.refreshCalls + 1 }, false) := by
  unfold refreshAccessToken refreshFails at *
  cases hr : e.refreshResult with
  | none => simp [clearSession]
  | some t =>
    rw [hr] at h
    simp only [Bool.or_eq_true] at h
    rcases h with h | h
    · simp [hr, h, clearSession]
    · cases hp : e.profileResult with
      | none => cases ht : t.isEmpty <;> simp [hr, hp, ht, clearSession]
      | some u => rw [hp] at h; simp at h

lemma refreshAccessToken_of_ok (e : RefreshEnv) (s : Sys) (t : String) (u : FlaskUser)
    (hr : e.refreshResult = some t) (ht : t.isEmpty = false) (hp : e.profileResult = some u) :
    refreshAccessToken e s =
      ({ s with storage := some t, auth := ⟨some u, some t, some u.role, false⟩,
                refreshCalls := s.refreshCalls + 1, validated := t :: s.validated }, true) := by
  unfold refreshAccessToken
  simp [hr, ht, hp]

lemma refreshFails_of_not_ok (e : RefreshEnv) (h : refreshFails e = false) :
    ∃ t u, e.refreshResult = some t ∧ t.isEmpty = false ∧ e.profileResult = some u := by
  unfold refreshFails at h
  cases hr : e.refreshResult with
  | none => rw [hr] at h; simp at h
  | some t =>
    rw [hr] at h
    simp only [Bool.or_eq_false_iff] at h
    cases hp : e.profileResult with
    | none => rw [hp] at h; simp at h
    | some u => exact ⟨t, u, rfl, h.1, rfl⟩

/-- The refresh round never touches the timers or the handle counter. -/
lemma refreshAccessToken_timers (e : RefreshEnv) (s : Sys) :
    (refreshAccessToken e s).1.pending = s.pending ∧
    (refreshAccessToken e s).1.nextId = s.nextId := by
  unfold refreshAccessToken
  cases e.refreshResult with
  | none => simp [clearSession]
  | some t =>
    cases ht : t.isEmpty <;> cases e.profileResult <;> simp [clearSession, ht]

lemma refreshAccessToken_calls (e : RefreshEnv) (s : Sys) :
    (refreshAccessToken e s).1.refreshCalls = s.refreshCalls + 1 := by
  unfold refreshAccessToken
  cases e.refreshResult with
  | none => simp [clearSession]
  | some t => cases ht : t.isEmpty <;> cases e.profileResult <;> simp [clearSession, ht]

/-- Everything the scheduling step reads from a token: the numeric view
of a truthy exp claim of a truthy decoded payload, and nothing else. -/
def expClaim (tok : String) : Option JsNum :=
  if tok.isEmpty then none
  else
    match decodeJwt tok with
    | none => none
    | some decoded =>
      if jsTruthy decoded then
        match jsGet decoded "exp" with
        | none => none
        | some ev => if jsTruthy ev then some (jsToNumber ev) else none
      else none

/-- The tail of the scheduling step once the entry clearing is done and
the exp claim of the resolved token is read. -/
def scheduleAfter (envs : List RefreshEnv) (now : Int) (g : Nat) (v : JsNum) (s0 : Sys) :
    Sys :=
  let expiresInMs := (JsNum.mul1000 v).subInt now
  if expiresInMs.leZero then clearSession s0
  else if expiresInMs.gtInt 300000 then armTimer g (expiresInMs.subInt 300000) s0
  else
    match envs with
    | [] => s0
    | e :: rest =>
      let r := refreshAccessToken e s0
      if r.2 then checkAndScheduleRefresh rest r.1.storage now g none r.1
      else r.1

/-- Character of the scheduling step when no truthy token resolves. -/
lemma sched_eq_noToken (envs : List RefreshEnv) (tk : Option String) (now : Int) (g : Nat)
    (var : Option Nat) (s : Sys) (h : resolveToken tk s.storage = none) :
    checkAndScheduleRefresh envs tk now g var s = clearVarTimer var s := by
  rw [checkAndScheduleRefresh.eq_def]
  simp only [clearVarTimer_storage, h]

/-- Character of the scheduling step when the resolved token yields no
usable exp claim: only the entry clearing happens. -/
lemma sched_eq_bad (envs : List RefreshEnv) (tk : Option String) (now : Int) (g : Nat)
    (var : Option Nat) (s : Sys) (tok : String)
    (htok : resolveToken tk s.storage = some tok) (h : expClaim tok = none) :
    checkAndScheduleRefresh envs tk now g var s = clearVarTimer var s := by
  rw [checkAndScheduleRefresh.eq_def]
  simp only [clearVarTimer_storage, htok]
  unfold expClaim at h
  cases hemp : tok.isEmpty with
  | true => simp [hemp]
  | false =>
    simp only [hemp, Bool.false_eq_true, if_false] at h
    cases hdec : decodeJwt tok with
    | none => simp [hemp, hdec]
    | some decoded =>
      simp only [hdec] at h
      cases htr : jsTruthy decoded with
      | false => simp [hemp, hdec, htr]
      | true =>
        simp only [htr, if_true] at h
        cases hget : jsGet decoded "exp" with
        | none => simp [hemp, hdec, htr, hget]
        | some ev =>
          simp only [hget] at h
          cases hev : jsTruthy ev with
          | false => simp [hemp, hdec, htr, hget, hev]
          | true => simp [hev] at h

/-- Character of the scheduling step when the resolved token carries a
truthy exp claim. -/
lemma sched_eq_run (envs : List RefreshEnv) (tk : Option String) (now : Int) (g : Nat)
    (var : Option Nat) (s : Sys) (tok : String) (v : JsNum)
    (htok : resolveToken tk s.storage = some tok) (h : expClaim tok = some v) :
    checkAndScheduleRefresh envs tk now g var s =
      scheduleAfter envs now g v (clearVarTimer var s) := by
  rw [checkAndScheduleRefresh.eq_def]
  simp only [clearVarTimer_storage, htok]
  unfold expClaim at h
  cases hemp : tok.isEmpty with
  | true => simp [hemp] at h
  | false =>
    simp only [hemp, Bool.false_eq_true, if_false] at h
    cases hdec : decodeJwt tok with
    | none => simp [hdec] at h
    | some decoded =>
      simp only [hdec] at h
      cases htr : jsTruthy decoded with
      | false => simp [htr] at h
      | true =>
        simp only [htr, if_true] at h
        cases hget : jsGet decoded "exp" with
        | none => simp [hget] at h
        | some ev =>
          simp only [hget] at h
          cases hev : jsTruthy ev with
          | false => simp [hev] at h
          | true =>
            simp only [hev, if_true, Option.some.injEq] at h
            subst h
            simp [hemp, hdec, htr, hget, hev, scheduleAfter]

lemma expClaim_ne_empty {tok : String} {v : JsNum} (h : expClaim tok = some v) :
    tok.isEmpty = false := by
  unfold expClaim at h
  cases he : tok.isEmpty with
  | true => rw [he] at h; simp at h
  | false => rfl

/-- The login payload carries a truthy token and a user. -/
def loginPayloadOk (le : LoginEnv) : Bool :=
  match le.data with
  | none => false
  | some d =>
    (match d.access_token with
     | some t => !t.isEmpty
     | none => false) && d.user.isSome

/-- signIn with a truthy login error: nothing happens. -/
lemma signIn_eq_err (le : LoginEnv) (envs : List RefreshEnv) (now : Int) (g : Nat) (s : Sys)
    (h : strTruthy le.error = true) : signIn le envs now g s = (s, none, le.error) := by
  unfold signIn
  simp [h]

/-- signIn with no truthy error but a payload missing a truthy token or
user: an error string, nothing else. -/
lemma signIn_eq_missing (le : LoginEnv) (envs : List RefreshEnv) (now : Int) (g : Nat)
    (s : Sys) (herr : strTruthy le.error = false) (h : loginPayloadOk le = false) :
    signIn le envs now g s = (s, none, some loginFailMsg) := by
  unfold signIn
  unfold loginPayloadOk at h
  cases hd : le.data with
  | none => simp [herr, hd]
  | some d =>
    simp only [hd] at h
    cases hat : d.access_token with
    | none => cases hu : d.user <;> simp [herr, hd, hat, hu]
    | some t =>
      simp only [hat] at h
      cases hu : d.user with
      | none => cases ht : t.isEmpty <;> simp [herr, hd, hat, hu, ht]
      | some u =>
        simp only [hu, Option.isSome_some, Bool.and_true, Bool.not_eq_false'] at h
        simp [herr, hd, hat, hu, h]

/-- signIn on a full payload: persist, set state, schedule with the
fresh null binding. -/
lemma signIn_eq_ok (le : LoginEnv) (envs : List RefreshEnv) (now : Int) (g : Nat) (s : Sys)
    (tok : String) (u : FlaskUser) (herr : strTruthy le.error = false)
    (hd : le.data = some ⟨some tok, some u⟩) (ht : tok.isEmpty = false) :
    signIn le envs now g s =
      (checkAndScheduleRefresh envs (some tok) now g none
        { s with storage := some tok, auth := ⟨some u, some tok, some u.role, false⟩,
                 issued := tok :: s.issued }, some u, none) := by
  unfold signIn
  simp [herr, hd, ht]

/-- Bootstrap with nothing (or an empty string) persisted: teardown. -/
lemma bootstrap_eq_noToken (pe : ProfileOutcome) (envs : List RefreshEnv) (now : Int)
    (g : Nat) (s : Sys) (h : strTruthy s.storage = false) :
    checkLocalSession pe envs now g s =
      clearSession { s with auth := { s.auth with loading := true } } := by
  unfold checkLocalSession
  unfold strTruthy at h
  cases hst : s.storage with
  | none => simp [hst]
  | some t => rw [hst] at h; simp only [Bool.not_eq_false'] at h; simp [hst, h]

/-- Bootstrap with a persisted token and profile data: the state is set
from the profile and the scheduling step runs on the token. -/
lemma bootstrap_eq_found (envs : List RefreshEnv) (now : Int) (g : Nat) (s : Sys)
    (tok : String) (u : FlaskUser) (hst : s.storage = some tok) (ht : tok.isEmpty = false) :
    checkLocalSession (.found u) envs now g s =
      checkAndScheduleRefresh envs (some tok) now g none
        { s with auth := ⟨some u, some tok, some u.role, false⟩,
                 validated := tok :: s.validated } := by
  unfold checkLocalSession
  simp [hst, ht]

/-- Bootstrap with a persisted token and a truthy profile error: one
refresh attempt; reschedule on success, teardown on failure. -/
lemma bootstrap_eq_failed (e : RefreshEnv) (rest : List RefreshEnv) (now : Int) (g : Nat)
    (s : Sys) (tok : String) (hst : s.storage = some tok) (ht : tok.isEmpty = false) :
    checkLocalSession .failed (e :: rest) now g s =
      (let s0 : Sys := { s with auth := { s.auth with loading := true } }
       let r := refreshAccessToken e s0
       if r.2 then checkAndScheduleRefresh rest r.1.storage now g none r.1
       else clearSession r.1) := by
  unfold checkLocalSession
  simp [hst, ht]

/-- Bootstrap with a persisted token and a silent profile response:
teardown. -/
lemma bootstrap_eq_silent (envs : List RefreshEnv) (now : Int) (g : Nat) (s : Sys)
    (tok : String) (hst : s.storage = some tok) (ht : tok.isEmpty = false) :
    checkLocalSession .silent envs now g s =
      clearSession { s with auth := { s.auth with loading := true } } := by
  unfold checkLocalSession
  simp [hst, ht]

/-- Provenance of a populated user: the session token passed a profile
fetch or came from a login response. -/
def UserOk (s : Sys) : Prop :=
  ∀ u : FlaskUser, s.auth.user = some u →
    ∃ tok, s.auth.session = some tok ∧ (tok ∈ s.validated ∨ tok ∈ s.issued)

lemma userOk_of_parts (s s1 : Sys) (h : UserOk s) (hauth : s1.auth = s.auth)
    (hv : s.validated ⊆ s1.validated) (hi : s.issued ⊆ s1.issued) : UserOk s1 := by
  intro u hu
  rw [hauth] at hu
  obtain ⟨tok, h1, h2⟩ := h u hu
  exact ⟨tok, by rw [hauth]; exact h1, h2.imp (fun a => hv a) (fun a => hi a)⟩

lemma userOk_of_anon (s1 : Sys) (h : s1.auth = anonAuth) : UserOk s1 := by
  intro u hu
  rw [h] at hu
  simp [anonAuth] at hu

lemma userOk_clearSession (s : Sys) : UserOk (clearSession s) :=
  userOk_of_anon _ (by simp [clearSession])

lemma userOk_clearVarTimer (var : Option Nat) (s : Sys) (h : UserOk s) :
    UserOk (clearVarTimer var s) :=
  userOk_of_parts s _ h (clearVarTimer_auth var s) (by simp) (by simp)

lemma userOk_refresh (e : RefreshEnv) (s : Sys) : UserOk (refreshAccessToken e s).1 := by
  cases hf : refreshFails e with
  | true =>
    rw [refreshAccessToken_of_fail e s hf]
    exact userOk_of_anon _ rfl
  | false =>
    obtain ⟨t, u0, hr, ht, hp⟩ := refreshFails_of_not_ok e hf
    rw [refreshAccessToken_of_ok e s t u0 hr ht hp]
    intro u hu
    simp only [Option.some.injEq] at hu
    exact ⟨t, rfl, Or.inl (by simp)⟩

lemma userOk_schedule (envs : List RefreshEnv) (tk : Option String) (now : Int) (g : Nat)
    (var : Option Nat) (s : Sys) (h : UserOk s) :
    UserOk (checkAndScheduleRefresh envs tk now g var s) := by
  induction envs generalizing tk var s with
  | nil =>
    cases htok : resolveToken tk s.storage with
    | none => rw [sched_eq_noToken _ _ _ _ _ _ htok]; exact userOk_clearVarTimer var s h
    | some tok =>
      cases hv : expClaim tok with
      | none => rw [sched_eq_bad _ _ _ _ _ _ _ htok hv]; exact userOk_clearVarTimer var s h
      | some v =>
        rw [sched_eq_run _ _ _ _ _ _ _ _ htok hv]
        unfold scheduleAfter
        cases hle : ((JsNum.mul1000 v).subInt now).leZero with
        | true => simp only [hle, if_true]; exact userOk_clearSession _
        | false =>
          cases hgt : ((JsNum.mul1000 v).subInt now).gtInt 300000 with
          | true =>
            simp only [hle, hgt, Bool.false_eq_true, if_false, if_true]
            exact userOk_of_parts _ _ (userOk_clearVarTimer var s h) (by simp [armTimer])
              (by simp [armTimer]) (by simp [armTimer])
          | false =>
            simp only [hle, hgt, Bool.false_eq_true, if_false]
            exact userOk_clearVarTimer var s h
  | cons e rest ih =>
    cases htok : resolveToken tk s.storage with
    | none => rw [sched_eq_noToken _ _ _ _ _ _ htok]; exact userOk_clearVarTimer var s h
    | some tok =>
      cases hv : expClaim tok with
      | none => rw [sched_eq_bad _ _ _ _ _ _ _ htok hv]; exact userOk_clearVarTimer var s h
      | some v =>
        rw [sched_eq_run _ _ _ _ _ _ _ _ htok hv]
        unfold scheduleAfter
        cases hle : ((JsNum.mul1000 v).subInt now).leZero with
        | true => simp only [hle, if_true]; exact userOk_clearSession _
        | false =>
          cases hgt : ((JsNum.mul1000 v).subInt now).gtInt 300000 with
          | true =>
            simp only [hle, hgt, Bool.false_eq_true, if_false, if_true]
            exact userOk_of_parts _ _ (userOk_clearVarTimer var s h) (by simp [armTimer])
              (by simp [armTimer]) (by simp [armTimer])
          | false =>
            simp only [hle, hgt, Bool.false_eq_true, if_false]
            cases hr2 : (refreshAccessToken e (clearVarTimer var s)).2 with
            | true => simp only [hr2, if_true]; exact ih _ _ _ (userOk_refresh e _)
            | false => simp only [hr2, Bool.false_eq_true, if_false]; exact userOk_refresh e _

lemma userOk_signOut (var : Option Nat) (s : Sys) : UserOk (signOut var s) := by
  unfold signOut
  exact userOk_of_anon _ rfl

lemma userOk_signIn (le : LoginEnv) (envs : List RefreshEnv) (now : Int) (g : Nat) (s : Sys)
    (h : UserOk s) : UserOk (signIn le envs now g s).1 := by
  cases herr : strTruthy le.error with
  | true => rw [signIn_eq_err _ _ _ _ _ herr]; exact h
  | false =>
    cases hok : loginPayloadOk le with
    | false => rw [signIn_eq_missing _ _ _ _ _ herr hok]; exact h
    | true =>
      unfold loginPayloadOk at hok
      cases hd : le.data with
      | none => simp [hd] at hok
      | some d =>
        simp only [hd] at hok
        cases hat : d.access_token with
        | none => simp [hat] at hok
        | some t =>
          simp only [hat] at hok
          cases hu : d.user with
          | none => simp [hu] at hok
          | some u =>
            simp only [hu, Option.isSome_some, Bool.and_true, Bool.not_eq_true'] at hok
            have hd2 : le.data = some ⟨some t, some u⟩ := by
              rw [hd]
              congr 1
              cases d with
              | mk at_ u_ => simp_all
            rw [signIn_eq_ok _ _ _ _ _ _ _ herr hd2 hok]
            refine userOk_schedule _ _ _ _ _ _ ?_
            intro u1 hu1
            simp only [Option.some.injEq] at hu1
            exact ⟨t, rfl, Or.inr (by simp)⟩

lemma userOk_fire (i : Nat) (envs : List RefreshEnv) (now : Int) (s : Sys)
    (h : UserOk s) : UserOk (fireTimer i envs now s) := by
  unfold fireTimer
  cases hfind : s.pending.find? (fun t => t.id == i) with
  | none => simpa [hfind] using h
  | some t =>
    simp only [hfind]
    have h0 : UserOk ({ s with pending := s.pending.filter (fun t2 => t2.id != i) } : Sys) :=
      userOk_of_parts s _ h rfl (by simp) (by simp)
    cases envs with
    | nil => exact h0
    | cons e rest =>
      simp only
      cases hr2 :
          (refreshAccessToken e
            ({ s with pending := s.pending.filter (fun t2 => t2.id != i) } : Sys)).2 with
      | true => simp only [hr2, if_true]; exact userOk_schedule _ _ _ _ _ _ (userOk_refresh e _)
      | false => simp only [hr2, Bool.false_eq_true, if_false]; exact userOk_refresh e _

lemma userOk_bootstrap (pe : ProfileOutcome) (envs : List RefreshEnv) (now : Int) (g : Nat)
    (s : Sys) (h : UserOk s) : UserOk (checkLocalSession pe envs now g s) := by
  have hs0 : UserOk ({ s with auth := { s.auth with loading := true } } : Sys) := by
    intro u hu
    obtain ⟨tok, h1, h2⟩ := h u hu
    exact ⟨tok, h1, h2⟩
  cases hst : strTruthy s.storage with
  | false => rw [bootstrap_eq_noToken _ _ _ _ _ hst]; exact userOk_clearSession _
  | true =>
    unfold strTruthy at hst
    cases hso : s.storage with
    | none => rw [hso] at hst; simp at hst
    | some tok =>
      rw [hso] at hst
      simp only [Bool.not_eq_true'] at hst
      cases pe with
      | found u =>
        rw [bootstrap_eq_found _ _ _ _ _ _ hso hst]
        refine userOk_schedule _ _ _ _ _ _ ?_
        intro u1 hu1
        simp only [Option.some.injEq] at hu1
        exact ⟨tok, rfl, Or.inl (by simp)⟩
      | silent => rw [bootstrap_eq_silent _ _ _ _ _ hso hst]; exact userOk_clearSession _
      | failed =>
        cases envs with
        | nil =>
          unfold checkLocalSession
          simp only [hso, hst, Bool.false_eq_true, if_false]
          exact hs0
        | cons e rest =>
          rw [bootstrap_eq_failed _ _ _ _ _ _ hso hst]
          simp only
          cases hr2 :
              (refreshAccessToken e
                ({ s with auth := { s.auth with loading := true } } : Sys)).2 with
          | true => simp only [hr2, if_true]; exact userOk_schedule _ _ _ _ _ _ (userOk_refresh e _)
          | false => simp only [hr2, Bool.false_eq_true, if_false]; exact userOk_clearSession _

/-- The user-provenance invariant holds in every reachable state. -/
lemma reachable_userOk {s : Sys} (h : Reachable s) : UserOk s := by
  induction h with
  | init tok => intro u hu; simp [initSys] at hu
  | step _ hstep ih =>
    cases hstep with
    | bootstrap pe envs now g s => exact userOk_bootstrap _ _ _ _ _ ih
    | login le envs now g s => exact userOk_signIn _ _ _ _ _ ih
    | logout var s => exact userOk_signOut _ _
    | refresh e s => exact userOk_refresh _ _
    | schedule envs tk now g var s => exact userOk_schedule _ _ _ _ _ _ ih
    | fire i envs now s => exact userOk_fire _ _ _ _ ih
    | unmount var s => exact userOk_clearVarTimer _ _ ih

/-- The scheduling step reads nothing from the passed token beyond its
emptiness and its exp claim. -/
lemma schedule_ext (t1 t2 : String) (envs : List RefreshEnv) (now : Int) (g : Nat)
    (var : Option Nat) (s : Sys)
    (hemp : t1.isEmpty = t2.isEmpty) (hexp : expClaim t1 = expClaim t2) :
    checkAndScheduleRefresh envs (some t1) now g var s =
      checkAndScheduleRefresh envs (some t2) now g var s := by
  cases he : t1.isEmpty with
  | true =>
    have he2 : t2.isEmpty = true := by rw [← hemp]; exact he
    have h1 : resolveToken (some t1) s.storage = s.storage := by
      simp [resolveToken, strTruthy, he]
    have h2 : resolveToken (some t2) s.storage = s.storage := by
      simp [resolveToken, strTruthy, he2]
    cases hst : s.storage with
    | none =>
      rw [sched_eq_noToken _ _ _ _ _ _ (h1.trans hst),
        sched_eq_noToken _ _ _ _ _ _ (h2.trans hst)]
    | some tok =>
      cases hv : expClaim tok with
      | none =>
        rw [sched_eq_bad _ _ _ _ _ _ _ (h1.trans hst) hv,
          sched_eq_bad _ _ _ _ _ _ _ (h2.trans hst) hv]
      | some v =>
        rw [sched_eq_run _ _ _ _ _ _ _ _ (h1.trans hst) hv,
          sched_eq_run _ _ _ _ _ _ _ _ (h2.trans hst) hv]
  | false =>
    have he2 : t2.isEmpty = false := by rw [← hemp]; exact he
    have h1 : resolveToken (some t1) s.storage = some t1 := by
      simp [resolveToken, strTruthy, he]
    have h2 : resolveToken (some t2) s.storage = some t2 := by
      simp [resolveToken, strTruthy, he2]
    cases hv : expClaim t1 with
    | none =>
      rw [sched_eq_bad _ _ _ _ _ _ _ h1 hv,
        sched_eq_bad _ _ _ _ _ _ _ h2 (by rw [← hexp]; exact hv)]
    | some v =>
      rw [sched_eq_run _ _ _ _ _ _ _ _ h1 hv,
        sched_eq_run _ _ _ _ _ _ _ _ h2 (by rw [← hexp]; exact hv)]

/-- The within-margin test of the scheduling step for a token. -/
def immediateAt (now : Int) (tok : String) : Bool :=
  match expClaim tok with
  | none => false
  | some v =>
    !((JsNum.mul1000 v).subInt now).leZero && !((JsNum.mul1000 v).subInt now).gtInt 300000

/-- Scheduling performs no refresh round unless the resolved token is
within the margin. -/
lemma sched_calls_of_not_immediate (envs : List RefreshEnv) (tk : Option String) (now : Int)
    (g : Nat) (var : Option Nat) (s : Sys)
    (h : ∀ tok, resolveToken tk s.storage = some tok → immediateAt now tok = false) :
    (checkAndScheduleRefresh envs tk now g var s).refreshCalls = s.refreshCalls := by
  cases htok : resolveToken tk s.storage with
  | none => rw [sched_eq_noToken _ _ _ _ _ _ htok]; simp
  | some tok =>
    have h2 := h tok htok
    unfold immediateAt at h2
    cases hv : expClaim tok with
    | none => rw [sched_eq_bad _ _ _ _ _ _ _ htok hv]; simp
    | some v =>
      simp only [hv] at h2
      rw [sched_eq_run _ _ _ _ _ _ _ _ htok hv]
      unfold scheduleAfter
      cases hle : ((JsNum.mul1000 v).subInt now).leZero with
      | true => simp [hle, clearSession]
      | false =>
        have hgt : ((JsNum.mul1000 v).subInt now).gtInt 300000 = true := by
          simp only [hle, Bool.not_false, Bool.true_and, Bool.not_eq_false'] at h2
          exact h2
        simp [hle, hgt, armTimer]

/-- refreshCalls never decreases under scheduling. -/
lemma sched_calls_ge (envs : List RefreshEnv) (tk : Option String) (now : Int) (g : Nat)
    (var : Option Nat) (s : Sys) :
    s.refreshCalls ≤ (checkAndScheduleRefresh envs tk now g var s).refreshCalls := by
  induction envs generalizing tk var s with
  | nil =>
    cases htok : resolveToken tk s.storage with
    | none => rw [sched_eq_noToken _ _ _ _ _ _ htok]; simp
    | some tok =>
      cases hv : expClaim tok with
      | none => rw [sched_eq_bad _ _ _ _ _ _ _ htok hv]; simp
      | some v =>
        rw [sched_eq_run _ _ _ _ _ _ _ _ htok hv]
        unfold scheduleAfter
        cases hle : ((JsNum.mul1000 v).subInt now).leZero with
        | true => simp [hle, clearSession]
        | false =>
          cases hgt : ((JsNum.mul1000 v).subInt now).gtInt 300000 with
          | true => simp [hle, hgt, armTimer]
          | false => simp [hle, hgt]
  | cons e rest ih =>
    cases htok : resolveToken tk s.storage with
    | none => rw [sched_eq_noToken _ _ _ _ _ _ htok]; simp
    | some tok =>
      cases hv : expClaim tok with
      | none => rw [sched_eq_bad _ _ _ _ _ _ _ htok hv]; simp
      | some v =>
        rw [sched_eq_run _ _ _ _ _ _ _ _ htok hv]
        unfold scheduleAfter
        cases hle : ((JsNum.mul1000 v).subInt now).leZero with
        | true => simp [hle, clearSession]
        | false =>
          cases hgt : ((JsNum.mul1000 v).subInt now).gtInt 300000 with
          | true => simp [hle, hgt, armTimer]
          | false =>
            simp only [hle, hgt, Bool.false_eq_true, if_false]
            have hc := refreshAccessToken_calls e (clearVarTimer var s)
            rw [clearVarTimer_refreshCalls] at hc
            cases hr2 : (refreshAccessToken e (clearVarTimer var s)).2 with
            | true =>
              simp only [hr2, if_true]
              calc s.refreshCalls
                  ≤ (refreshAccessToken e (clearVarTimer var s)).1.refreshCalls := by
                    rw [hc]; exact Nat.le_succ _
                _ ≤ _ := ih _ _ _
            | false =>
              simp only [hr2, Bool.false_eq_true, if_false]
              rw [hc]
              exact Nat.le_succ _

lemma fireTimer_eq_miss (i : Nat) (envs : List RefreshEnv) (now : Int) (s : Sys)
    (h : s.pending.find? (fun t => t.id == i) = none) :
    fireTimer i envs now s = s := by
  unfold fireTimer
  simp [h]

lemma fireTimer_eq_cons (i : Nat) (tm : Timer) (e : RefreshEnv) (rest : List RefreshEnv)
    (now : Int) (s : Sys) (h : s.pending.find? (fun t => t.id == i) = some tm) :
    fireTimer i (e :: rest) now s =
      (let r := refreshAccessToken e
         { s with pending := s.pending.filter (fun t2 => t2.id != i) }
       if r.2 then checkAndScheduleRefresh rest r.1.storage now tm.gen (some i) r.1
       else r.1) := by
  unfold fireTimer
  simp [h]

/-- The environment of one whole refresh cycle: either the refresh round
fails, or the fresh token it stores is not itself within the margin. -/
def goodCycle (now : Int) (e : RefreshEnv) : Bool :=
  match e.refreshResult with
  | none => true
  | some t => t.isEmpty || e.profileResult.isNone || !immediateAt now t

/-- Firing a pending timer performs exactly one refresh round whenever
the cycle environment is good, however many responses stand ready. -/
lemma fire_calls_one (i : Nat) (e : RefreshEnv) (rest : List RefreshEnv)
    (now : Int) (s : Sys)
    (hp : (s.pending.find? (fun t => t.id == i)).isSome = true)
    (hg : goodCycle now e = true) :
    (fireTimer i (e :: rest) now s).refreshCalls = s.refreshCalls + 1 := by
  obtain ⟨tm, hp⟩ := Option.isSome_iff_exists.mp hp
  rw [fireTimer_eq_cons _ _ _ _ _ _ hp]
  cases hf : refreshFails e with
  | true =>
    rw [refreshAccessToken_of_fail e _ hf]
    simp
  | false =>
    obtain ⟨t, u0, hr, ht, hpr⟩ := refreshFails_of_not_ok e hf
    rw [refreshAccessToken_of_ok e _ t u0 hr ht hpr]
    simp only [if_true]
    have him : immediateAt now t = false := by
      unfold goodCycle at hg
      simp only [hr, ht, hpr, Option.isSome_some, Bool.false_or, Bool.or_eq_true,
        Bool.not_eq_true'] at hg
      rcases hg with hg | hg
      · simp at hg
      · exact hg
    rw [sched_calls_of_not_immediate _ _ _ _ _ _ ?side]
    case side =>
      intro tok htok
      simp only [resolveToken, strTruthy, ht, Bool.not_false, if_true,
        Option.some.injEq] at htok
      rw [← htok]
      exact him

/-- A demonstration JWT whose payload is the JSON text with exp claim
4000000000 (seconds). -/
def tok1 : String := "h.eyJleHAiOjQwMDAwMDAwMDB9.s"

/-- A demonstration JWT with exp claim 5000000000 (seconds). -/
def tok2 : String := "h.eyJleHAiOjUwMDAwMDAwMDB9.s"

/-- A demonstration JWT whose payload decodes but has no exp claim. -/
def tokNoExp : String := "h.eyJmb28iOjF9.s"

def user1 : FlaskUser := ⟨"u1", "Ada", "Lovelace", "ada@example.com", .candidate⟩

/-- The state after a bootstrap (render generation 0) that validated
tok1 at time 1000. -/
def demoBoot : Sys := checkLocalSession (.found user1) [] 1000 0 (initSys (some tok1))

/-- The state after a successful sign-in with tok1 at time 1000. -/
def demoLogin : Sys :=
  (signIn ⟨none, some ⟨some tok1, some user1⟩⟩ [] 1000 0 (initSys none)).1

/-- The state after the bootstrapped demoBoot is followed by a sign-in
from a later render (generation 1) that receives tok2. -/
def demoTwoTimers : Sys :=
  (signIn ⟨none, some ⟨some tok2, some user1⟩⟩ [] 2000 1 demoBoot).1

/-- The state after sign-out is called on demoBoot from a later render,
whose fresh refreshTimer binding is null. -/
def demoSignedOut : Sys := signOut none demoBoot

/-- C1: for a persisted token whose expiry lies more than the 5-minute
margin in the future and that passes profile validation, bootstrap ends
Authenticated and arms exactly one single-shot timer of delay
expiry - now - margin, held by the bootstrap render's binding; when that
timer fires it triggers exactly one refreshToken call (one full cycle: a
failing refresh, or a successful one whose fresh token is not itself
within the margin). -/
theorem C1_bootstrap_schedules_single_refresh (s : Sys) (tok : String) (u : FlaskUser)
    (q : ℚ) (now : Int) (g : Nat) (envs : List RefreshEnv)
    (hst : s.storage = some tok)
    (hclaim : expClaim tok = some (.fin q))
    (hfar : q * 1000 - now > 300000)
    (hpend : s.pending = []) :
    (checkLocalSession (.found u) envs now g s).auth =
      ⟨some u, some tok, some u.role, false⟩ ∧
    (checkLocalSession (.found u) envs now g s).pending =
      [⟨s.nextId, .fin (q * 1000 - now - 300000), g⟩] ∧
    (∀ e rest now2, goodCycle now2 e = true →
      (fireTimer s.nextId (e :: rest) now2
          (checkLocalSession (.found u) envs now g s)).refreshCalls =
        (checkLocalSession (.found u) envs now g s).refreshCalls + 1) := by
  have ht : tok.isEmpty = false := expClaim_ne_empty hclaim
  rw [bootstrap_eq_found _ _ _ _ _ _ hst ht]
  have hres : resolveToken (some tok)
      ({ s with auth := ⟨some u, some tok, some u.role, false⟩,
                validated := tok :: s.validated } : Sys).storage = some tok := by
    simp [resolveToken, strTruthy, ht]
  rw [sched_eq_run _ _ _ _ _ _ _ _ hres hclaim]
  simp only [clearVarTimer_none]
  unfold scheduleAfter
  simp only [JsNum.mul1000, JsNum.subInt]
  have hle : (JsNum.fin (q * 1000 - (now : ℚ))).leZero = false := by
    simp only [JsNum.leZero, decide_eq_false_iff_not, not_le]
    linarith
  have hgt : (JsNum.fin (q * 1000 - (now : ℚ))).gtInt 300000 = true := by
    simp only [JsNum.gtInt, decide_eq_true_eq]
    push_cast
    linarith
  simp only [hle, Bool.false_eq_true, if_false, hgt, if_true, JsNum.subInt]
  refine ⟨by simp [armTimer], ?_, ?_⟩
  · simp only [armTimer, hpend]
    norm_num
  · intro e rest now2 hg
    refine fire_calls_one s.nextId e rest now2 _ ?_ hg
    simp [armTimer, hpend]

/-- C1 witness: the hypotheses hold at tok1, profile user1, now = 1000,
generation 0, envs empty, and the conclusion is evaluated there; the
armed timer fires at time 2000 against a refresh that hands back
tok2. -/
theorem C1_witness :
    demoBoot.auth = ⟨some user1, some tok1, some user1.role, false⟩ ∧
    demoBoot.pending =
      [⟨(initSys (some tok1)).nextId,
        .fin ((4000000000 : ℚ) * 1000 - (1000 : Int) - 300000), 0⟩] ∧
    (fireTimer (initSys (some tok1)).nextId (⟨some tok2, some user1⟩ :: []) 2000
        demoBoot).refreshCalls = demoBoot.refreshCalls + 1 := by
  have h := C1_bootstrap_schedules_single_refresh (initSys (some tok1)) tok1 user1
    4000000000 1000 0 [] (by with_unfolding_all rfl) (by with_unfolding_all rfl)
    (by norm_num) rfl
  exact ⟨h.1, h.2.1, h.2.2 ⟨some tok2, some user1⟩ [] 2000 (by with_unfolding_all rfl)⟩

/-- C2: for every prior state, a failed refresh round ends Anonymous
with the persisted token cleared, makes exactly one refresh attempt and
arms no retry; fired from the scheduled timer the whole cycle still
performs exactly one refresh call and arms nothing. -/
theorem C2_refresh_failure_terminal (e : RefreshEnv) (s : Sys) (h : refreshFails e = true) :
    (refreshAccessToken e s).1.auth = anonAuth ∧
    (refreshAccessToken e s).1.storage = none ∧
    (refreshAccessToken e s).1.refreshCalls = s.refreshCalls + 1 ∧
    (refreshAccessToken e s).2 = false ∧
    (refreshAccessToken e s).1.pending = s.pending ∧
    (∀ i rest now, (s.pending.find? (fun t2 => t2.id == i)).isSome = true →
      (fireTimer i (e :: rest) now s).refreshCalls = s.refreshCalls + 1 ∧
      (fireTimer i (e :: rest) now s).auth = anonAuth ∧
      (fireTimer i (e :: rest) now s).storage = none ∧
      (fireTimer i (e :: rest) now s).pending =
        s.pending.filter (fun t2 => t2.id != i)) := by
  rw [refreshAccessToken_of_fail e s h]
  refine ⟨rfl, rfl, rfl, rfl, rfl, ?_⟩
  intro i rest now hp
  obtain ⟨tm, hp⟩ := Option.isSome_iff_exists.mp hp
  rw [fireTimer_eq_cons i tm e rest now s hp]
  rw [refreshAccessToken_of_fail e _ h]
  exact ⟨rfl, rfl, rfl, rfl⟩

/-- C2 witness: a refresh error round applied to the bootstrapped state
carrying one pending timer, and the same round consumed by the timer
firing. -/
theorem C2_witness :
    (refreshAccessToken ⟨none, none⟩ demoBoot).1.auth = anonAuth ∧
    (refreshAccessToken ⟨none, none⟩ demoBoot).1.storage = none ∧
    (refreshAccessToken ⟨none, none⟩ demoBoot).1.refreshCalls = demoBoot.refreshCalls + 1 ∧
    (refreshAccessToken ⟨none, none⟩ demoBoot).2 = false ∧
    (refreshAccessToken ⟨none, none⟩ demoBoot).1.pending = demoBoot.pending ∧
    ((fireTimer 0 (⟨none, none⟩ :: []) 2000 demoBoot).refreshCalls =
        demoBoot.refreshCalls + 1 ∧
      (fireTimer 0 (⟨none, none⟩ :: []) 2000 demoBoot).auth = anonAuth ∧
      (fireTimer 0 (⟨none, none⟩ :: []) 2000 demoBoot).storage = none ∧
      (fireTimer 0 (⟨none, none⟩ :: []) 2000 demoBoot).pending =
        demoBoot.pending.filter (fun t2 => t2.id != 0)) := by
  have h := C2_refresh_failure_terminal ⟨none, none⟩ demoBoot rfl
  exact ⟨h.1, h.2.1, h.2.2.1, h.2.2.2.1, h.2.2.2.2.1,
    h.2.2.2.2.2 0 [] 2000 (by with_unfolding_all rfl)⟩

/-- C3 counterexample: the persisted token is already expired at
bootstrap (exp 4000000000 s against now = 4100000000000 ms), the initial
profile check fails, and the single recovery refresh succeeds with a
fresh token; bootstrap then ends Authenticated with a pending timer,
not Anonymous with none. -/
theorem C3_counterexample :
    ((4000000000 : ℚ) * 1000 - ((4100000000000 : Int) : ℚ) ≤ 0) ∧
    expClaim tok1 = some (.fin 4000000000) ∧
    (checkLocalSession .failed [⟨some tok2, some user1⟩] 4100000000000 0
        (initSys (some tok1))).auth.user = some user1 ∧
    (checkLocalSession .failed [⟨some tok2, some user1⟩] 4100000000000 0
        (initSys (some tok1))).pending.length = 1 := by
  refine ⟨by norm_num, by with_unfolding_all rfl, by with_unfolding_all rfl,
    by with_unfolding_all rfl⟩

/-- C3 (amended): for a persisted token already expired at bootstrap,
bootstrap ends Anonymous with no timer armed, provided the single
recovery refresh does not succeed — that is, the profile check succeeds
or stays silent, or it errors and the one refresh attempt fails.  (When
that refresh succeeds, bootstrap may instead end Authenticated on the
fresh token, the recovery path of the source.) -/
theorem C3_expired_bootstrap_anonymous (s : Sys) (tok : String) (q : ℚ) (now : Int)
    (g : Nat) (pe : ProfileOutcome) (envs : List RefreshEnv)
    (hst : s.storage = some tok)
    (hclaim : expClaim tok = some (.fin q))
    (hexp : q * 1000 - now ≤ 0)
    (hpend : s.pending = [])
    (hrec : (∃ u, pe = .found u) ∨ pe = .silent ∨
      (pe = .failed ∧ ∃ e rest, envs = e :: rest ∧ refreshFails e = true)) :
    (checkLocalSession pe envs now g s).auth = anonAuth ∧
    (checkLocalSession pe envs now g s).storage = none ∧
    (checkLocalSession pe envs now g s).pending = [] := by
  have ht : tok.isEmpty = false := expClaim_ne_empty hclaim
  rcases hrec with ⟨u, rfl⟩ | rfl | ⟨rfl, e, rest, rfl, hf⟩
  · rw [bootstrap_eq_found _ _ _ _ _ _ hst ht]
    have hres : resolveToken (some tok)
        ({ s with auth := ⟨some u, some tok, some u.role, false⟩,
                  validated := tok :: s.validated } : Sys).storage = some tok := by
      simp [resolveToken, strTruthy, ht]
    rw [sched_eq_run _ _ _ _ _ _ _ _ hres hclaim]
    simp only [clearVarTimer_none]
    unfold scheduleAfter
    simp only [JsNum.mul1000, JsNum.subInt]
    have hle : (JsNum.fin (q * 1000 - (now : ℚ))).leZero = true := by
      simp only [JsNum.leZero, decide_eq_true_eq]
      linarith
    simp only [hle, if_true]
    exact ⟨rfl, rfl, by simp [clearSession, hpend]⟩
  · rw [bootstrap_eq_silent _ _ _ _ _ hst ht]
    exact ⟨rfl, rfl, by simp [clearSession, hpend]⟩
  · rw [bootstrap_eq_failed _ _ _ _ _ _ hst ht]
    simp only
    rw [refreshAccessToken_of_fail e _ hf]
    simp only [Bool.false_eq_true, if_false]
    exact ⟨rfl, rfl, by simp [clearSession, hpend]⟩

/-- C3 witness: the expired tok1 at now = 4100000000000 with a failing
profile check and a failing recovery refresh. -/
theorem C3_witness :
    (checkLocalSession .failed [⟨none, none⟩] 4100000000000 0
        (initSys (some tok1))).auth = anonAuth ∧
    (checkLocalSession .failed [⟨none, none⟩] 4100000000000 0
        (initSys (some tok1))).storage = none ∧
    (checkLocalSession .failed [⟨none, none⟩] 4100000000000 0
        (initSys (some tok1))).pending = [] :=
  C3_expired_bootstrap_anonymous (initSys (some tok1)) tok1 4000000000 4100000000000
    0 .failed [⟨none, none⟩] (by with_unfolding_all rfl) (by with_unfolding_all rfl)
    (by norm_num) rfl (Or.inr (Or.inr ⟨rfl, ⟨none, none⟩, [], rfl, rfl⟩))

/-- C4 fails on the code: the refreshTimer variable is a render-local
let, re-initialized to null on every render (useAuth.ts line 51), so the
sign-in chain of a later render holds a null binding and cannot cancel
the timer armed by the mount effect's chain, although its
checkAndScheduleRefresh does run the clearing code first.  After a
bootstrap in render generation 0 and a successful sign-in in render
generation 1, two refresh timers are pending at once, where the claim
demands at most one at every instant. -/
theorem C4_two_timers_coexist :
    Reachable demoTwoTimers ∧
    demoTwoTimers.pending.map Timer.id = [0, 1] ∧
    demoTwoTimers.pending.length = 2 :=
  ⟨Reachable.step (Reachable.step (Reachable.init (some tok1))
      (Step.bootstrap (.found user1) [] 1000 0 (initSys (some tok1))))
      (Step.login ⟨none, some ⟨some tok2, some user1⟩⟩ [] 2000 1 demoBoot),
    by with_unfolding_all rfl, by with_unfolding_all rfl⟩

/-- C5 counterexample: right after a successful sign-in the state is
reachable, the user is populated, yet the freshly issued session token
never passed a profile fetch — sign-in trusts the login payload without
any profile validation, so a populated user does not imply a
profile-validated token. -/
theorem C5_counterexample :
    Reachable demoLogin ∧
    demoLogin.auth.user = some user1 ∧
    demoLogin.auth.session = some tok1 ∧
    demoLogin.validated = [] :=
  ⟨Reachable.step (Reachable.init none)
      (Step.login ⟨none, some ⟨some tok1, some user1⟩⟩ [] 1000 0 (initSys none)),
    by with_unfolding_all rfl, by with_unfolding_all rfl, by with_unfolding_all rfl⟩

/-- C5 (amended): in every reachable state a populated user implies the
session token passed the profile endpoint or was freshly issued by the
login endpoint (sign-in performs no profile check before populating the
user); and locally decoded claims feed only the scheduling step, which
reads nothing from a token beyond its emptiness and its exp claim. -/
theorem C5_token_provenance :
    (∀ s : Sys, Reachable s → ∀ u : FlaskUser, s.auth.user = some u →
      ∃ tok, s.auth.session = some tok ∧ (tok ∈ s.validated ∨ tok ∈ s.issued)) ∧
    (∀ t1 t2 : String, ∀ envs : List RefreshEnv, ∀ now : Int, ∀ g : Nat,
      ∀ var : Option Nat, ∀ s : Sys,
      t1.isEmpty = t2.isEmpty → expClaim t1 = expClaim t2 →
      checkAndScheduleRefresh envs (some t1) now g var s =
        checkAndScheduleRefresh envs (some t2) now g var s) :=
  ⟨fun _ hs => reachable_userOk hs,
   fun t1 t2 envs now g var s h1 h2 => schedule_ext t1 t2 envs now g var s h1 h2⟩

/-- C5 witness: the provenance invariant evaluated at the sign-in state,
and the noninterference equation at two undecodable tokens. -/
theorem C5_witness :
    (∃ tok, demoLogin.auth.session = some tok ∧
      (tok ∈ demoLogin.validated ∨ tok ∈ demoLogin.issued)) ∧
    checkAndScheduleRefresh [] (some "x.y") 5 0 none (initSys none) =
      checkAndScheduleRefresh [] (some "z.w") 5 0 none (initSys none) :=
  ⟨C5_token_provenance.1 demoLogin
      (Reachable.step (Reachable.init none)
        (Step.login ⟨none, some ⟨some tok1, some user1⟩⟩ [] 1000 0 (initSys none)))
      user1 (by with_unfolding_all rfl),
   C5_token_provenance.2 "x.y" "z.w" [] 5 0 none (initSys none) (by rfl)
      (by with_unfolding_all rfl)⟩

/-- C6: a sign-in whose external login call reports a truthy error, or
returns a payload missing a truthy token or a user, hands an error back
and performs no state mutation at all. -/
theorem C6_signin_failure_pure (le : LoginEnv) (envs : List RefreshEnv) (now : Int)
    (g : Nat) (s : Sys)
    (h : strTruthy le.error = true ∨ loginPayloadOk le = false) :
    (signIn le envs now g s).1 = s ∧
    (signIn le envs now g s).2.1 = none ∧
    (signIn le envs now g s).2.2.isSome = true := by
  cases herr : strTruthy le.error with
  | true =>
    rw [signIn_eq_err _ _ _ _ _ herr]
    refine ⟨rfl, rfl, ?_⟩
    unfold strTruthy at herr
    cases he : le.error with
    | none => rw [he] at herr; simp at herr
    | some msg => simp
  | false =>
    rcases h with h | h
    · rw [herr] at h; simp at h
    · rw [signIn_eq_missing _ _ _ _ _ herr h]
      exact ⟨rfl, rfl, rfl⟩

/-- C6 witness: a login error, and an error-free payload whose token is
the empty string (falsy), both against the bootstrapped state. -/
theorem C6_witness :
    ((signIn ⟨some "Invalid credentials", none⟩ [] 1000 1 demoBoot).1 = demoBoot ∧
      (signIn ⟨some "Invalid credentials", none⟩ [] 1000 1 demoBoot).2.1 = none ∧
      (signIn ⟨some "Invalid credentials", none⟩ [] 1000 1 demoBoot).2.2.isSome = true) ∧
    ((signIn ⟨none, some ⟨some "", some user1⟩⟩ [] 1000 1 demoBoot).1 = demoBoot ∧
      (signIn ⟨none, some ⟨some "", some user1⟩⟩ [] 1000 1 demoBoot).2.1 = none ∧
      (signIn ⟨none, some ⟨some "", some user1⟩⟩ [] 1000 1 demoBoot).2.2.isSome = true) :=
  ⟨C6_signin_failure_pure ⟨some "Invalid credentials", none⟩ [] 1000 1 demoBoot
      (Or.inl (by with_unfolding_all rfl)),
   C6_signin_failure_pure ⟨none, some ⟨some "", some user1⟩⟩ [] 1000 1 demoBoot
      (Or.inr (by with_unfolding_all rfl))⟩

/-- C7 counterexample: the login succeeds — token and user present, the
call returns the user with no error — yet the returned token is already
expired, so the final state is Anonymous with cleared storage and no
timer instead of Authenticated with the token persisted and one timer
armed. -/
theorem C7_counterexample :
    (signIn ⟨none, some ⟨some tok1, some user1⟩⟩ [] 4100000000000 0 (initSys none)).2.1 =
      some user1 ∧
    (signIn ⟨none, some ⟨some tok1, some user1⟩⟩ [] 4100000000000 0 (initSys none)).2.2 =
      none ∧
    (signIn ⟨none, some ⟨some tok1, some user1⟩⟩ [] 4100000000000 0
        (initSys none)).1.auth = anonAuth ∧
    (signIn ⟨none, some ⟨some tok1, some user1⟩⟩ [] 4100000000000 0
        (initSys none)).1.storage = none ∧
    (signIn ⟨none, some ⟨some tok1, some user1⟩⟩ [] 4100000000000 0
        (initSys none)).1.pending = [] :=
  ⟨by with_unfolding_all rfl, by with_unfolding_all rfl, by with_unfolding_all rfl,
    by with_unfolding_all rfl, by with_unfolding_all rfl⟩

/-- C7 (amended): a sign-in whose login call succeeds with a user and a
token whose expiry lies more than the margin beyond now ends
Authenticated with that user, the token persisted and exactly one timer
armed; a token within the margin triggers an immediate refresh with no
timer for it, and an expired one tears the session down. -/
theorem C7_signin_success_schedules (le : LoginEnv) (envs : List RefreshEnv) (now : Int)
    (g : Nat) (s : Sys) (tok : String) (u : FlaskUser) (q : ℚ)
    (herr : strTruthy le.error = false)
    (hd : le.data = some ⟨some tok, some u⟩)
    (hclaim : expClaim tok = some (.fin q))
    (hfar : q * 1000 - now > 300000)
    (hpend : s.pending = []) :
    (signIn le envs now g s).1.auth = ⟨some u, some tok, some u.role, false⟩ ∧
    (signIn le envs now g s).1.storage = some tok ∧
    (signIn le envs now g s).1.pending =
      [⟨s.nextId, .fin (q * 1000 - now - 300000), g⟩] ∧
    (signIn le envs now g s).2.1 = some u ∧
    (signIn le envs now g s).2.2 = none := by
  have ht : tok.isEmpty = false := expClaim_ne_empty hclaim
  rw [signIn_eq_ok _ _ _ _ _ _ _ herr hd ht]
  simp only
  have hres : resolveToken (some tok)
      ({ s with storage := some tok, auth := ⟨some u, some tok, some u.role, false⟩,
                issued := tok :: s.issued } : Sys).storage = some tok := by
    simp [resolveToken, strTruthy, ht]
  rw [sched_eq_run _ _ _ _ _ _ _ _ hres hclaim]
  simp only [clearVarTimer_none]
  unfold scheduleAfter
  simp only [JsNum.mul1000, JsNum.subInt]
  have hle : (JsNum.fin (q * 1000 - (now : ℚ))).leZero = false := by
    simp only [JsNum.leZero, decide_eq_false_iff_not, not_le]
    linarith
  have hgt : (JsNum.fin (q * 1000 - (now : ℚ))).gtInt 300000 = true := by
    simp only [JsNum.gtInt, decide_eq_true_eq]
    push_cast
    linarith
  simp only [hle, Bool.false_eq_true, if_false, hgt, if_true, JsNum.subInt]
  refine ⟨by simp [armTimer], by simp [armTimer], ?_, by trivial, by trivial⟩
  simp only [armTimer, hpend]
  norm_num

/-- C7 witness: sign-in with tok1 at now = 1000 in render generation
0. -/
theorem C7_witness :
    (signIn ⟨none, some ⟨some tok1, some user1⟩⟩ [] 1000 0 (initSys none)).1.auth =
      ⟨some user1, some tok1, some user1.role, false⟩ ∧
    (signIn ⟨none, some ⟨some tok1, some user1⟩⟩ [] 1000 0 (initSys none)).1.storage =
      some tok1 ∧
    (signIn ⟨none, some ⟨some tok1, some user1⟩⟩ [] 1000 0 (initSys none)).1.pending =
      [⟨(initSys none).nextId,
        .fin ((4000000000 : ℚ) * 1000 - (1000 : Int) - 300000), 0⟩] ∧
    (signIn ⟨none, some ⟨some tok1, some user1⟩⟩ [] 1000 0 (initSys none)).2.1 =
      some user1 ∧
    (signIn ⟨none, some ⟨some tok1, some user1⟩⟩ [] 1000 0 (initSys none)).2.2 = none :=
  C7_signin_success_schedules ⟨none, some ⟨some tok1, some user1⟩⟩ [] 1000 0
    (initSys none) tok1 user1 4000000000 (by rfl) (by rfl) (by with_unfolding_all rfl)
    (by norm_num) rfl

/-- C8 fails on the code: sign-out called from a later render holds that
render's null refreshTimer binding (the variable is re-initialized on
every render), so the clearInterval at lines 250-253 cancels nothing and
the bootstrap-armed timer survives sign-out, where the claim demands
zero pending timers.  The remaining conjuncts of the claim hold: the
call is total (never throws), leaves Anonymous with the persisted token
cleared, and a second call changes nothing further. -/
theorem C8_signout_leaves_timer :
    Reachable demoSignedOut ∧
    demoSignedOut.auth = anonAuth ∧
    demoSignedOut.storage = none ∧
    demoSignedOut.pending.length = 1 ∧
    signOut none demoSignedOut = demoSignedOut :=
  ⟨Reachable.step (Reachable.step (Reachable.init (some tok1))
      (Step.bootstrap (.found user1) [] 1000 0 (initSys (some tok1))))
      (Step.logout none demoBoot),
    by with_unfolding_all rfl, by with_unfolding_all rfl, by with_unfolding_all rfl,
    by with_unfolding_all rfl⟩

/-- C9: for a token expiring in the future but within the 5-minute
margin, the scheduling step triggers a refresh round at once — at least
one call always, exactly one for a good cycle environment — and arms no
timer for that refresh: on a failing refresh the final state is exactly
the torn-down one with no pending timer. -/
theorem C9_within_margin_immediate (e : RefreshEnv) (rest : List RefreshEnv) (now : Int)
    (g : Nat) (s : Sys) (tok : String) (q : ℚ)
    (hclaim : expClaim tok = some (.fin q))
    (hfuture : q * 1000 - now > 0) (hnear : q * 1000 - now ≤ 300000)
    (hpend : s.pending = []) :
    (checkAndScheduleRefresh (e :: rest) (some tok) now g none s).refreshCalls ≥
      s.refreshCalls + 1 ∧
    (goodCycle now e = true →
      (checkAndScheduleRefresh (e :: rest) (some tok) now g none s).refreshCalls =
        s.refreshCalls + 1) ∧
    (refreshFails e = true →
      checkAndScheduleRefresh (e :: rest) (some tok) now g none s =
        { s with storage := none, auth := anonAuth,
                 refreshCalls := s.refreshCalls + 1 } ∧
      (checkAndScheduleRefresh (e :: rest) (some tok) now g none s).pending = []) := by
  have ht : tok.isEmpty = false := expClaim_ne_empty hclaim
  have hres : resolveToken (some tok) s.storage = some tok := by
    simp [resolveToken, strTruthy, ht]
  rw [sched_eq_run _ _ _ _ _ _ _ _ hres hclaim]
  simp only [clearVarTimer_none]
  unfold scheduleAfter
  simp only [JsNum.mul1000, JsNum.subInt]
  have hle : (JsNum.fin (q * 1000 - (now : ℚ))).leZero = false := by
    simp only [JsNum.leZero, decide_eq_false_iff_not, not_le]
    linarith
  have hgt : (JsNum.fin (q * 1000 - (now : ℚ))).gtInt 300000 = false := by
    simp only [JsNum.gtInt, decide_eq_false_iff_not, not_lt]
    push_cast
    linarith
  simp only [hle, hgt, Bool.false_eq_true, if_false]
  refine ⟨?_, ?_, ?_⟩
  · cases hf : refreshFails e with
    | true =>
      rw [refreshAccessToken_of_fail e s hf]
      simp
    | false =>
      obtain ⟨t, u0, hr, htk, hpr⟩ := refreshFails_of_not_ok e hf
      rw [refreshAccessToken_of_ok e s t u0 hr htk hpr]
      simp only [if_true]
      refine le_trans ?_ (sched_calls_ge rest _ now g none _)
      simp
  · intro hg
    cases hf : refreshFails e with
    | true =>
      rw [refreshAccessToken_of_fail e s hf]
      simp
    | false =>
      obtain ⟨t, u0, hr, htk, hpr⟩ := refreshFails_of_not_ok e hf
      rw [refreshAccessToken_of_ok e s t u0 hr htk hpr]
      simp only [if_true]
      have him : immediateAt now t = false := by
        unfold goodCycle at hg
        simp only [hr, htk, hpr, Option.isSome_some, Bool.false_or, Bool.or_eq_true,
          Bool.not_eq_true'] at hg
        rcases hg with hg | hg
        · simp at hg
        · exact hg
      rw [sched_calls_of_not_immediate _ _ _ _ _ _ ?side2]
      case side2 =>
        intro tok2 htok2
        simp only [resolveToken, strTruthy, htk, Bool.not_false, if_true,
          Option.some.injEq] at htok2
        rw [← htok2]
        exact him
  · intro hf
    rw [refreshAccessToken_of_fail e s hf]
    simp only [Bool.false_eq_true, if_false]
    exact ⟨by trivial, hpend⟩

/-- C9 witness: tok1 at one minute before its expiry, against a failing
refresh and against a good cycle handing back tok2. -/
theorem C9_witness :
    ((checkAndScheduleRefresh (⟨none, none⟩ :: []) (some tok1) 3999999940000 0 none
        (initSys none)).refreshCalls ≥ (initSys none).refreshCalls + 1 ∧
      checkAndScheduleRefresh (⟨none, none⟩ :: []) (some tok1) 3999999940000 0 none
        (initSys none) =
        { initSys none with storage := none, auth := anonAuth,
                            refreshCalls := (initSys none).refreshCalls + 1 } ∧
      (checkAndScheduleRefresh (⟨none, none⟩ :: []) (some tok1) 3999999940000 0 none
        (initSys none)).pending = []) ∧
    (checkAndScheduleRefresh (⟨some tok2, some user1⟩ :: []) (some tok1) 3999999940000
        0 none (initSys none)).refreshCalls = (initSys none).refreshCalls + 1 := by
  have h1 := C9_within_margin_immediate ⟨none, none⟩ [] 3999999940000 0 (initSys none)
    tok1 4000000000 (by with_unfolding_all rfl) (by norm_num) (by norm_num) rfl
  have h2 := C9_within_margin_immediate ⟨some tok2, some user1⟩ [] 3999999940000 0
    (initSys none) tok1 4000000000 (by with_unfolding_all rfl) (by norm_num)
    (by norm_num) rfl
  exact ⟨⟨h1.1, (h1.2.2 rfl).1, (h1.2.2 rfl).2⟩, h2.2.1 (by with_unfolding_all rfl)⟩

/-- C10: for a resolved token whose payload is not decodable (decodeJwt
yields none instead of throwing) or whose decoded payload lacks an exp
claim, the scheduling step leaves the session state, the persisted token
and the refresh-call count untouched, arms no timer, and performs only
the entry clearing on whatever handle the chain's binding holds. -/
theorem C10_bad_token_schedule_inert (envs : List RefreshEnv) (tk : Option String)
    (now : Int) (g : Nat) (var : Option Nat) (s : Sys) (tok : String)
    (htok : resolveToken tk s.storage = some tok)
    (h : decodeJwt tok = none ∨ ∃ p, decodeJwt tok = some p ∧ jsGet p "exp" = none) :
    checkAndScheduleRefresh envs tk now g var s = clearVarTimer var s ∧
    (checkAndScheduleRefresh envs tk now g var s).auth = s.auth ∧
    (checkAndScheduleRefresh envs tk now g var s).storage = s.storage ∧
    (checkAndScheduleRefresh envs tk now g var s).refreshCalls = s.refreshCalls ∧
    (checkAndScheduleRefresh envs tk now g var s).pending.length ≤ s.pending.length := by
  have hv : expClaim tok = none := by
    unfold expClaim
    cases he : tok.isEmpty with
    | true => simp
    | false =>
      simp only [Bool.false_eq_true, if_false]
      rcases h with h | ⟨p, hp, hg⟩
      · simp [h]
      · simp only [hp]
        cases htr : jsTruthy p with
        | false => simp [htr]
        | true => simp [htr, hg]
  rw [sched_eq_bad _ _ _ _ _ _ _ htok hv]
  exact ⟨rfl, clearVarTimer_auth var s, clearVarTimer_storage var s,
    clearVarTimer_refreshCalls var s, clearVarTimer_pending_length var s⟩

/-- C10 witness: a token with no dot in it (the payload access itself
fails), and a token whose payload decodes to an object with no exp
claim; both scheduled against the signed-in state with a fresh null
binding. -/
theorem C10_witness :
    decodeJwt "notajwt" = none ∧
    decodeJwt tokNoExp = some (.obj [("foo", .num 1)]) ∧
    jsGet (.obj [("foo", .num 1)]) "exp" = none ∧
    (checkAndScheduleRefresh [] (some "notajwt") 5 0 none demoLogin =
        clearVarTimer none demoLogin ∧
      (checkAndScheduleRefresh [] (some "notajwt") 5 0 none demoLogin).auth =
        demoLogin.auth ∧
      (checkAndScheduleRefresh [] (some "notajwt") 5 0 none demoLogin).storage =
        demoLogin.storage ∧
      (checkAndScheduleRefresh [] (some "notajwt") 5 0 none demoLogin).refreshCalls =
        demoLogin.refreshCalls ∧
      (checkAndScheduleRefresh [] (some "notajwt") 5 0 none demoLogin).pending.length ≤
        demoLogin.pending.length) ∧
    (checkAndScheduleRefresh [] (some tokNoExp) 5 0 none demoLogin =
        clearVarTimer none demoLogin ∧
      (checkAndScheduleRefresh [] (some tokNoExp) 5 0 none demoLogin).auth =
        demoLogin.auth ∧
      (checkAndScheduleRefresh [] (some tokNoExp) 5 0 none demoLogin).storage =
        demoLogin.storage ∧
      (checkAndScheduleRefresh [] (some tokNoExp) 5 0 none demoLogin).refreshCalls =
        demoLogin.refreshCalls ∧
      (checkAndScheduleRefresh [] (some tokNoExp) 5 0 none demoLogin).pending.length ≤
        demoLogin.pending.length) :=
  ⟨by with_unfolding_all rfl, by with_unfolding_all rfl, by with_unfolding_all rfl,
   C10_bad_token_schedule_inert [] (some "notajwt") 5 0 none demoLogin "notajwt"
     (by with_unfolding_all rfl) (Or.inl (by with_unfolding_all rfl)),
   C10_bad_token_schedule_inert [] (some tokNoExp) 5 0 none demoLogin tokNoExp
     (by with_unfolding_all rfl)
     (Or.inr ⟨.obj [("foo", .num 1)], by with_unfolding_all rfl,
       by with_unfolding_all rfl⟩)⟩

end Hirify
